import Mathlib

/-!
Verification of the drop-resolution and stability core of the Stack Hero
block-stacking game, shallowly embedded from the JavaScript source
(game.js and levels.js).  JavaScript numbers are modelled as exact
rationals; every call to Math.random is made an explicit parameter.
Rendering, audio and DOM side effects are omitted: the only state they
touch that the core reads back is none, except that showLevelComplete
sets isPaused and showGameCompleted sets isPaused and isActive, which
are modelled inline.
-/

namespace StackHero

/-- Game configuration record, gameState.config in game.js. -/
structure Config where
  canvasWidth : ℚ
  canvasHeight : ℚ
  blockHeight : ℚ
  minBlockWidth : ℚ
  maxBlockWidth : ℚ
  initialBlockWidth : ℚ
  baseBlockSpeed : ℚ
  speedIncrease : ℚ
deriving DecidableEq

/-- The configuration literal in game.js. -/
def defaultConfig : Config :=
  { canvasWidth := 800
    canvasHeight := 800
    blockHeight := 30
    minBlockWidth := 40
    maxBlockWidth := 200
    initialBlockWidth := 150
    baseBlockSpeed := 0.8
    speedIncrease := 0.05 }

/-- One game block.  The cosmetic color string and the timestamped
animation fields are omitted; the boolean animation flags that the core
sets (collapsing on tower collapse, missing on a miss) are kept. -/
structure Block where
  id : ℕ
  width : ℚ
  x : ℚ
  y : ℚ
  speed : ℚ
  verticalSpeed : ℚ
  isMoving : Bool
  isPlaced : Bool
  originalWidth : ℚ
  collapsing : Bool
  missing : Bool
deriving DecidableEq

/-- Block.place in game.js: stop the block and mark it placed. -/
def Block.place (b : Block) : Block :=
  { b with isMoving := false, isPlaced := true, speed := 0 }

/-- Block.shrink in game.js: set the width to the requested value,
clamped up to the forgiving minimum max(minBlockWidth * 0.7, 20). -/
def Block.shrink (b : Block) (cfg : Config) (newWidth : ℚ) : Block :=
  let minWidth := max (cfg.minBlockWidth * 0.7) 20
  { b with width := max newWidth minWidth }

/-- calculateOverlap in game.js: horizontal overlap of two blocks,
clamped at zero. -/
def calculateOverlap (block1 block2 : Block) : ℚ :=
  max 0 (min (block1.x + block1.width) (block2.x + block2.width) -
          max block1.x block2.x)

/-- Closed enumeration of the specialMechanics.type string tags used by
the level table. -/
inductive SpecialMechanic where
  | tutorial
  | sizeReduction
  | speedBoost
  | precisionChallenge
  | windEffect
  | gravityShift
  | ultimateChallenge
deriving DecidableEq

/-- One level definition from levels.js.  The cosmetic name,
description and rewards fields are omitted; blockWidthRange is split
into widthMin and widthMax.  blocksToComplete is null (none) in the
endless-mode default config. -/
structure LevelConfig where
  id : ℕ
  blocksToComplete : Option ℕ
  blockSpeed : ℚ
  widthMin : ℚ
  widthMax : ℚ
  perfectThreshold : ℚ
  speedIncrease : ℚ
  specialMechanics : Option SpecialMechanic
deriving DecidableEq

/-- The LEVELS array of levels.js, numeric and mechanic fields. -/
def LEVELS : List LevelConfig :=
  [ { id := 1, blocksToComplete := some 3, blockSpeed := 0.4,
      widthMin := 140, widthMax := 180, perfectThreshold := 0.4,
      speedIncrease := 0.01, specialMechanics := some .tutorial },
    { id := 2, blocksToComplete := some 3, blockSpeed := 0.6,
      widthMin := 120, widthMax := 160, perfectThreshold := 0.5,
      speedIncrease := 0.02, specialMechanics := some .sizeReduction },
    { id := 3, blocksToComplete := some 3, blockSpeed := 0.8,
      widthMin := 100, widthMax := 140, perfectThreshold := 0.55,
      speedIncrease := 0.03, specialMechanics := some .speedBoost },
    { id := 4, blocksToComplete := some 3, blockSpeed := 1.0,
      widthMin := 80, widthMax := 120, perfectThreshold := 0.65,
      speedIncrease := 0.04, specialMechanics := some .precisionChallenge },
    { id := 5, blocksToComplete := some 3, blockSpeed := 1.0,
      widthMin := 80, widthMax := 120, perfectThreshold := 0.6,
      speedIncrease := 0.04, specialMechanics := some .windEffect },
    { id := 6, blocksToComplete := some 3, blockSpeed := 1.4,
      widthMin := 60, widthMax := 100, perfectThreshold := 0.65,
      speedIncrease := 0.06, specialMechanics := some .gravityShift },
    { id := 7, blocksToComplete := some 3, blockSpeed := 1.6,
      widthMin := 50, widthMax := 90, perfectThreshold := 0.7,
      speedIncrease := 0.08, specialMechanics := some .ultimateChallenge } ]

/-- The default endless-mode level object returned by getLevelConfig
when the requested id is not in LEVELS.  It has no specialMechanics
field (undefined) and blocksToComplete is null. -/
def endlessLevelConfig (levelNumber : ℕ) : LevelConfig :=
  { id := levelNumber, blocksToComplete := none, blockSpeed := 1.5,
    widthMin := 50, widthMax := 90, perfectThreshold := 0.8,
    speedIncrease := 0.08, specialMechanics := none }

/-- getLevelConfig in levels.js: find the level by id, falling back to
the endless-mode default. -/
def getLevelConfig (levelNumber : ℕ) : LevelConfig :=
  (LEVELS.find? (fun l => l.id == levelNumber)).getD
    (endlessLevelConfig levelNumber)

/-- Calculated per-level game parameters, the params record built by
calculateLevelParameters in levels.js. -/
structure LevelParams where
  blockSpeed : ℚ
  widthMin : ℚ
  widthMax : ℚ
  perfectThreshold : ℚ
  speedIncrease : ℚ
  pointsPerBlock : ℚ
  comboMultiplier : ℚ
deriving DecidableEq

/-- applyEndlessScaling in levels.js.  The formula is written against
(levelNumber - 10) although it is applied for every level above 7, so
for levels 8 and 9 the scale factor is below 1; the subtraction is done
in the rationals, as in JavaScript. -/
def applyEndlessScaling (params : LevelParams) (levelNumber : ℕ) : LevelParams :=
  let scaleFactor : ℚ := 1 + ((levelNumber : ℚ) - 10) * 0.1
  { params with
    blockSpeed := params.blockSpeed * scaleFactor
    widthMin := max 30 (params.widthMin * (1 - ((levelNumber : ℚ) - 10) * 0.02))
    widthMax := max 60 (params.widthMax * (1 - ((levelNumber : ℚ) - 10) * 0.02))
    perfectThreshold :=
      min 0.99 (params.perfectThreshold + ((levelNumber : ℚ) - 10) * 0.01)
    pointsPerBlock := ((⌊params.pointsPerBlock * scaleFactor⌋ : ℤ) : ℚ) }

/-- calculateLevelParameters in levels.js.  No entry of LEVELS and not
the endless default defines a specialRules field, so the
applySpecialRules branch is dead and omitted here; pointsPerBlock and
comboMultiplier come from BASE_CONFIG. -/
def calculateLevelParameters (levelNumber : ℕ) : LevelParams :=
  let level := getLevelConfig levelNumber
  let params : LevelParams :=
    { blockSpeed := level.blockSpeed
      widthMin := level.widthMin
      widthMax := level.widthMax
      perfectThreshold := level.perfectThreshold
      speedIncrease := level.speedIncrease
      pointsPerBlock := 10
      comboMultiplier := 1.5 }
  if levelNumber > 7 then applyEndlessScaling params levelNumber else params

/-- The mutable game session state, gameState in game.js.  The moving
currentBlock is not stored: its width and position at drop time depend
on player timing and on Math.random, so dropBlock below receives the
active block as an explicit argument.  speedMultiplier and the
transient gravityShiftVerticalSpeed are unused by the verified core. -/
structure GameState where
  tower : List Block
  score : ℚ
  level : ℕ
  isActive : Bool
  isPaused : Bool
  blocksPlaced : ℕ
  blocksInCurrentLevel : ℕ
  perfectThreshold : ℚ
  comboStreak : ℕ
  config : Config
  currentLevelConfig : LevelConfig
  currentLevelParams : LevelParams
deriving DecidableEq

/-- initGame in game.js: reset the session, load the level parameters,
seed the placed base block at the bottom centre of the canvas.  The
first moving block that generateNewBlock would create is random and is
supplied to dropBlock by the caller instead. -/
def initGame (level : ℕ) : GameState :=
  let levelConfig := getLevelConfig level
  let levelParams := calculateLevelParameters level
  let baseBlock : Block := Block.place
    { id := 0
      width := defaultConfig.initialBlockWidth
      x := (defaultConfig.canvasWidth - defaultConfig.initialBlockWidth) / 2
      y := defaultConfig.canvasHeight - defaultConfig.blockHeight
      speed := 0, verticalSpeed := 0
      isMoving := false, isPlaced := false
      originalWidth := defaultConfig.initialBlockWidth
      collapsing := false, missing := false }
  { tower := [baseBlock]
    score := 0
    level := level
    isActive := true
    isPaused := false
    blocksPlaced := 0
    blocksInCurrentLevel := 0
    perfectThreshold := levelParams.perfectThreshold
    comboStreak := 0
    config := defaultConfig
    currentLevelConfig := levelConfig
    currentLevelParams := levelParams }

/-- Width computation of generateNewBlock in game.js: a random draw in
the level width range, clamped up to the configured minimum block
width, then scaled down by the size-reduction or ultimate-challenge
mechanics (each with its own floor).  r stands for Math.random. -/
def generateNewBlockWidth (cfg : Config) (params : LevelParams)
    (mech : Option SpecialMechanic) (blocksInCurrentLevel : ℕ) (r : ℚ) : ℚ :=
  let base := max cfg.minBlockWidth
    (params.widthMin + r * (params.widthMax - params.widthMin))
  match mech with
  | some .sizeReduction =>
      base * max 0.7 (1 - (blocksInCurrentLevel : ℚ) * 0.05)
  | some .ultimateChallenge =>
      base * max 0.8 (1 - (blocksInCurrentLevel : ℚ) * 0.03)
  | _ => base

/-- The forgiving minimum width used by Block.shrink and by the
too-small check in dropBlock: max(minBlockWidth * 0.7, 20). -/
def relaxedMinWidth (cfg : Config) : ℚ :=
  max (cfg.minBlockWidth * 0.7) 20

/-- Perfect-alignment classification of dropBlock in game.js: the
threshold is taken on the narrower of the falling block and the tower
top (on ties, the tower top, whose width is then equal). -/
def isPerfectDrop (cb lastTowerBlock : Block) (perfectThreshold : ℚ) : Bool :=
  let thresholdBlock := if cb.width < lastTowerBlock.width then cb else lastTowerBlock
  decide (thresholdBlock.width * perfectThreshold ≤ calculateOverlap cb lastTowerBlock)

/-- Outcome of one dropBlock call. -/
inductive DropOutcome where
  | noBlock
  | missed
  | tooSmall
  | placed (perfect : Bool)
  | completed (perfect : Bool)
deriving DecidableEq

/-- Whether the outcome recorded a perfect alignment. -/
def DropOutcome.isPerfect : DropOutcome → Bool
  | .placed p => p
  | .completed p => p
  | _ => false

/-- Tail of dropBlock in game.js after a viable placement: append the
block to the tower, bump both counters, award the base points
10 + level * 5 at the pre-advance level, then advance the level when
the quota is reached.  Reaching the quota on level 7 shows the
game-completed popup, which pauses and deactivates the session;
otherwise the new level parameters are loaded and showLevelComplete
pauses the session during the transition. -/
def finishDrop (s : GameState) (block : Block) (perfect : Bool) :
    DropOutcome × GameState :=
  let s1 := { s with tower := s.tower ++ [block]
                     blocksPlaced := s.blocksPlaced + 1
                     blocksInCurrentLevel := s.blocksInCurrentLevel + 1 }
  let basePoints : ℚ := 10 + (s1.level : ℚ) * 5
  let s2 := { s1 with score := s1.score + basePoints }
  match s2.currentLevelConfig.blocksToComplete with
  | some blocksToComplete =>
      if s2.blocksInCurrentLevel ≥ blocksToComplete then
        if s2.level = 7 then
          (.completed perfect, { s2 with isPaused := true, isActive := false })
        else
          let newLevelConfig := getLevelConfig (s2.level + 1)
          let newLevelParams := calculateLevelParameters (s2.level + 1)
          (.placed perfect,
            { s2 with level := s2.level + 1
                      blocksInCurrentLevel := 0
                      currentLevelConfig := newLevelConfig
                      currentLevelParams := newLevelParams
                      perfectThreshold := newLevelParams.perfectThreshold
                      isPaused := true })
      else (.placed perfect, s2)
  | none => (.placed perfect, s2)

/-- dropBlock in game.js.  The active block is the explicit argument
cb; gameState.tower[length - 1] is the last element of the tower.  On
a miss the missing animation flag is set on the dropped block, which
never joins the tower.  On placement the vertical position snaps to one
block height above the tower top and any gravity-shift vertical speed
is cleared.  A perfect drop keeps the width and awards a combo bonus
doubled under the precision-challenge mechanic; an imperfect drop
shrinks the block to the overlap (clamped by Block.shrink) and resets
the combo, ending the session if the resulting width is below the
forgiving minimum. -/
def dropBlock (s : GameState) (cb : Block) : DropOutcome × GameState :=
  if cb.isMoving = false then (.noBlock, s)
  else
    match s.tower.getLast? with
    | none => (.noBlock, s)
    | some lastTowerBlock =>
      let overlap := calculateOverlap cb lastTowerBlock
      if overlap ≤ 0 then
        (.missed, { s with isActive := false })
      else
        let placedBlock : Block :=
          { cb.place with y := lastTowerBlock.y - s.config.blockHeight
                          verticalSpeed := 0 }
        let perfectAlignment := isPerfectDrop cb lastTowerBlock s.perfectThreshold
        if perfectAlignment then
          let comboStreak := s.comboStreak + 1
          let comboMultiplier : ℚ :=
            if s.currentLevelConfig.specialMechanics = some .precisionChallenge
            then 2 else 1
          let bonusPoints := 100 * (comboStreak : ℚ) * comboMultiplier
          finishDrop
            { s with comboStreak := comboStreak, score := s.score + bonusPoints }
            placedBlock true
        else
          let shrunk := placedBlock.shrink s.config overlap
          let s1 := { s with comboStreak := 0 }
          if shrunk.width < relaxedMinWidth s.config then
            (.tooSmall, { s1 with isActive := false })
          else
            finishDrop s1 shrunk false

/-- Standard moving test block used by concrete scenarios: width w,
left edge at x, one tower height above the canvas middle. -/
def movingBlock (w x : ℚ) : Block :=
  { id := 1, width := w, x := x, y := 700, speed := 1, verticalSpeed := 0
    isMoving := true, isPlaced := false, originalWidth := w
    collapsing := false, missing := false }

/-- Sum over adjacent tower pairs of the absolute difference of the
horizontal centres, the totalOffset loop of checkTowerStability. -/
def towerTotalOffset (tower : List Block) : ℚ :=
  (tower.zip tower.tail).foldl
    (fun acc p =>
      acc + |p.2.x + p.2.width / 2 - (p.1.x + p.1.width / 2)|) 0

/-- checkTowerStability in game.js: with fewer than 3 blocks the state
is untouched; otherwise the tower collapses, deactivating the session
and flagging every block, exactly when the total centre offset exceeds
canvasWidth * 0.6 scaled by the level forgiveness factor. -/
def checkTowerStability (s : GameState) : GameState :=
  if s.tower.length < 3 then s
  else
    let totalOffset := towerTotalOffset s.tower
    let baseMaxOffset := s.config.canvasWidth * 0.6
    let levelMultiplier := max 0.8 (1 - ((s.level : ℚ) - 1) * 0.02)
    let maxOffset := baseMaxOffset * levelMultiplier
    if maxOffset < totalOffset then
      { s with isActive := false
               tower := s.tower.map (fun b => { b with collapsing := true }) }
    else s

/-! ## Auxiliary lemmas about finishDrop and dropBlock -/

/-- The width of the threshold block is the smaller of the two widths. -/
theorem thresholdBlock_width (cb lastB : Block) :
    (if cb.width < lastB.width then cb else lastB).width =
      min cb.width lastB.width := by
  split_ifs with h
  · exact (min_eq_left h.le).symm
  · exact (min_eq_right (le_of_not_lt h)).symm

/-- finishDrop appends exactly the given block to the tower. -/
theorem finishDrop_tower (s : GameState) (b : Block) (p : Bool) :
    (finishDrop s b p).2.tower = s.tower ++ [b] := by
  unfold finishDrop
  cases h : s.currentLevelConfig.blocksToComplete with
  | none => simp [h]
  | some q => simp only [h]; split_ifs <;> rfl

/-- finishDrop increments the global blocks-placed counter. -/
theorem finishDrop_blocksPlaced (s : GameState) (b : Block) (p : Bool) :
    (finishDrop s b p).2.blocksPlaced = s.blocksPlaced + 1 := by
  unfold finishDrop
  cases h : s.currentLevelConfig.blocksToComplete with
  | none => simp [h]
  | some q => simp only [h]; split_ifs <;> rfl

/-- finishDrop does not touch the combo streak. -/
theorem finishDrop_comboStreak (s : GameState) (b : Block) (p : Bool) :
    (finishDrop s b p).2.comboStreak = s.comboStreak := by
  unfold finishDrop
  cases h : s.currentLevelConfig.blocksToComplete with
  | none => simp [h]
  | some q => simp only [h]; split_ifs <;> rfl

/-- finishDrop adds exactly the base points 10 + level * 5. -/
theorem finishDrop_score (s : GameState) (b : Block) (p : Bool) :
    (finishDrop s b p).2.score = s.score + (10 + (s.level : ℚ) * 5) := by
  unfold finishDrop
  cases h : s.currentLevelConfig.blocksToComplete with
  | none => simp [h]
  | some q => simp only [h]; split_ifs <;> rfl

/-- The width written by Block.shrink, as a projection equation. -/
theorem shrink_width (b : Block) (cfg : Config) (w : ℚ) :
    (b.shrink cfg w).width = max w (relaxedMinWidth cfg) := rfl

/-- Block.shrink never leaves a block below the forgiving minimum. -/
theorem shrink_width_ge (b : Block) (cfg : Config) (w : ℚ) :
    relaxedMinWidth cfg ≤ (b.shrink cfg w).width := by
  rw [shrink_width]; exact le_max_right _ _

/-- finishDrop reports a placement or the game completion, nothing else. -/
theorem finishDrop_fst (s : GameState) (b : Block) (p : Bool) :
    (finishDrop s b p).1 = .placed p ∨ (finishDrop s b p).1 = .completed p := by
  unfold finishDrop
  cases h : s.currentLevelConfig.blocksToComplete with
  | none => simp [h]
  | some q => simp only [h]; split_ifs <;> simp

/-- The outcome of finishDrop carries the perfect flag unchanged. -/
theorem finishDrop_isPerfect (s : GameState) (b : Block) (p : Bool) :
    (finishDrop s b p).1.isPerfect = p := by
  rcases finishDrop_fst s b p with h | h <;> rw [h] <;> rfl

/-- Reduction of dropBlock in the positive-overlap case: the drop is a
placement, perfect or shrunk, the too-small exit being unreachable
because Block.shrink clamps the width up to the same forgiving
minimum that the exit tests. -/
theorem dropBlock_pos_eq (s : GameState) (cb lastB : Block)
    (hm : cb.isMoving = true) (hl : s.tower.getLast? = some lastB)
    (hov : 0 < calculateOverlap cb lastB) :
    dropBlock s cb =
      if isPerfectDrop cb lastB s.perfectThreshold then
        finishDrop
          { s with comboStreak := s.comboStreak + 1
                   score := s.score + 100 * ((s.comboStreak + 1 : ℕ) : ℚ) *
                     (if s.currentLevelConfig.specialMechanics =
                        some .precisionChallenge then 2 else 1) }
          { cb.place with y := lastB.y - s.config.blockHeight
                          verticalSpeed := 0 } true
      else
        finishDrop { s with comboStreak := 0 }
          (Block.shrink
            { cb.place with y := lastB.y - s.config.blockHeight
                            verticalSpeed := 0 }
            s.config (calculateOverlap cb lastB)) false := by
  unfold dropBlock
  rw [hm, hl]
  simp only [Bool.true_eq_false, if_false]
  rw [if_neg (not_le.mpr hov), if_neg (not_lt.mpr (shrink_width_ge _ _ _))]

/-- The tutorial tag differs from the precision-challenge tag, stated
as an equation usable by simp-based evaluation. -/
theorem tutorialMech_ne_precision :
    (SpecialMechanic.tutorial = SpecialMechanic.precisionChallenge) = False := by
  simp

/-- Reduction of dropBlock in the zero-overlap case. -/
theorem dropBlock_miss_eq (s : GameState) (cb lastB : Block)
    (hm : cb.isMoving = true) (hl : s.tower.getLast? = some lastB)
    (hov : calculateOverlap cb lastB ≤ 0) :
    dropBlock s cb = (.missed, { s with isActive := false }) := by
  unfold dropBlock
  rw [hm, hl]
  simp only [Bool.true_eq_false, if_false]
  rw [if_pos hov]

/-- dropBlock is a no-op reporting noBlock when the active block is
not moving. -/
theorem dropBlock_not_moving (s : GameState) (cb : Block)
    (h : cb.isMoving = false) : dropBlock s cb = (.noBlock, s) := by
  unfold dropBlock
  rw [h, if_pos rfl]

/-- dropBlock is a no-op reporting noBlock on an empty tower. -/
theorem dropBlock_no_tower (s : GameState) (cb : Block)
    (h : s.tower.getLast? = none) : dropBlock s cb = (.noBlock, s) := by
  unfold dropBlock
  rw [h]
  split_ifs <;> rfl

/-! ## Concrete scenario data -/

/-- The placed base block seeded by initGame with the default
configuration: width 150, centred at x = 325, y = 770. -/
def initialBase : Block :=
  Block.place
    { id := 0, width := 150, x := 325, y := 770, speed := 0, verticalSpeed := 0
      isMoving := false, isPlaced := false, originalWidth := 150
      collapsing := false, missing := false }

/-- A session whose tower top has width 100 at x = 0 and whose perfect
threshold is 0.8, for the classification example of the spec. -/
def stateC1 : GameState :=
  { initGame 1 with perfectThreshold := 0.8
                    tower := [(movingBlock 100 0).place] }

/-- State after one full-overlap drop on a fresh level-1 session. -/
def c6drop1 : GameState := (dropBlock (initGame 1) (movingBlock 150 325)).2

/-- State after two full-overlap drops on a fresh level-1 session. -/
def c6drop2 : GameState := (dropBlock c6drop1 (movingBlock 150 325)).2

/-- State after three full-overlap drops on a fresh level-1 session. -/
def c6drop3 : GameState := (dropBlock c6drop2 (movingBlock 150 325)).2

/-! ## Claim theorems -/

/-- C1: for every drop with positive overlap onto the tower top, the
drop is classified perfect exactly when the overlap reaches
perfectThreshold times the width of the narrower of the falling block
and the tower top; in particular, with threshold-block width 100 and
perfectThreshold 0.8, overlap 80 is perfect and overlap 79 is not. -/
theorem dropBlock_perfect_iff :
    (∀ (s : GameState) (cb lastB : Block), cb.isMoving = true →
      s.tower.getLast? = some lastB → 0 < calculateOverlap cb lastB →
      ((dropBlock s cb).1.isPerfect = true ↔
        min cb.width lastB.width * s.perfectThreshold ≤
          calculateOverlap cb lastB)) ∧
    calculateOverlap (movingBlock 100 20) ((movingBlock 100 0).place) = 80 ∧
    (dropBlock stateC1 (movingBlock 100 20)).1.isPerfect = true ∧
    calculateOverlap (movingBlock 100 21) ((movingBlock 100 0).place) = 79 ∧
    (dropBlock stateC1 (movingBlock 100 21)).1.isPerfect = false := by
  refine ⟨?_, by norm_num [dropBlock, finishDrop, initGame, initialBase, stateC1, movingBlock,
    Block.place, Block.shrink, defaultConfig, calculateOverlap, isPerfectDrop,
    DropOutcome.isPerfect, getLevelConfig, calculateLevelParameters,
    endlessLevelConfig, LEVELS, relaxedMinWidth, max_def, min_def,
    tutorialMech_ne_precision, c6drop1, c6drop2, c6drop3],
    by norm_num [dropBlock, finishDrop, initGame, initialBase, stateC1, movingBlock,
    Block.place, Block.shrink, defaultConfig, calculateOverlap, isPerfectDrop,
    DropOutcome.isPerfect, getLevelConfig, calculateLevelParameters,
    endlessLevelConfig, LEVELS, relaxedMinWidth, max_def, min_def,
    tutorialMech_ne_precision, c6drop1, c6drop2, c6drop3],
    by norm_num [dropBlock, finishDrop, initGame, initialBase, stateC1, movingBlock,
    Block.place, Block.shrink, defaultConfig, calculateOverlap, isPerfectDrop,
    DropOutcome.isPerfect, getLevelConfig, calculateLevelParameters,
    endlessLevelConfig, LEVELS, relaxedMinWidth, max_def, min_def,
    tutorialMech_ne_precision, c6drop1, c6drop2, c6drop3],
    by norm_num [dropBlock, finishDrop, initGame, initialBase, stateC1, movingBlock,
    Block.place, Block.shrink, defaultConfig, calculateOverlap, isPerfectDrop,
    DropOutcome.isPerfect, getLevelConfig, calculateLevelParameters,
    endlessLevelConfig, LEVELS, relaxedMinWidth, max_def, min_def,
    tutorialMech_ne_precision, c6drop1, c6drop2, c6drop3]⟩
  intro s cb lastB hm hl hov
  have hiff : isPerfectDrop cb lastB s.perfectThreshold = true ↔
      min cb.width lastB.width * s.perfectThreshold ≤
        calculateOverlap cb lastB := by
    simp only [isPerfectDrop, decide_eq_true_eq, thresholdBlock_width]
  rw [dropBlock_pos_eq s cb lastB hm hl hov]
  by_cases hperf : isPerfectDrop cb lastB s.perfectThreshold = true
  · exact iff_of_true (by rw [if_pos hperf, finishDrop_isPerfect])
      (hiff.mp hperf)
  · refine iff_of_false ?_ (fun hc => hperf (hiff.mpr hc))
    rw [if_neg hperf, finishDrop_isPerfect]
    exact Bool.false_ne_true

/-- Witness for C1: the general classification applied to the concrete
width-100 tower top at threshold 0.8 under overlap 80. -/
theorem dropBlock_perfect_iff_witness :
    (0 : ℚ) < calculateOverlap (movingBlock 100 20) ((movingBlock 100 0).place) ∧
    (dropBlock stateC1 (movingBlock 100 20)).1.isPerfect = true :=
  ⟨by norm_num [dropBlock, finishDrop, initGame, initialBase, stateC1, movingBlock,
    Block.place, Block.shrink, defaultConfig, calculateOverlap, isPerfectDrop,
    DropOutcome.isPerfect, getLevelConfig, calculateLevelParameters,
    endlessLevelConfig, LEVELS, relaxedMinWidth, max_def, min_def,
    tutorialMech_ne_precision],
   (dropBlock_perfect_iff.1 stateC1 (movingBlock 100 20)
      ((movingBlock 100 0).place) rfl
      (by norm_num [dropBlock, finishDrop, initGame, initialBase, stateC1, movingBlock,
    Block.place, Block.shrink, defaultConfig, calculateOverlap, isPerfectDrop,
    DropOutcome.isPerfect, getLevelConfig, calculateLevelParameters,
    endlessLevelConfig, LEVELS, relaxedMinWidth, max_def, min_def,
    tutorialMech_ne_precision])
      (by norm_num [dropBlock, finishDrop, initGame, initialBase, stateC1, movingBlock,
    Block.place, Block.shrink, defaultConfig, calculateOverlap, isPerfectDrop,
    DropOutcome.isPerfect, getLevelConfig, calculateLevelParameters,
    endlessLevelConfig, LEVELS, relaxedMinWidth, max_def, min_def,
    tutorialMech_ne_precision])).mpr
    (by norm_num [dropBlock, finishDrop, initGame, initialBase, stateC1, movingBlock,
    Block.place, Block.shrink, defaultConfig, calculateOverlap, isPerfectDrop,
    DropOutcome.isPerfect, getLevelConfig, calculateLevelParameters,
    endlessLevelConfig, LEVELS, relaxedMinWidth, max_def, min_def,
    tutorialMech_ne_precision])⟩

/-- C7: a drop whose overlap with the tower top is zero is reported as
a miss and deactivates the session, leaving the tower, score, combo
streak, both block counters and the level unchanged. -/
theorem dropBlock_miss (s : GameState) (cb lastB : Block)
    (hm : cb.isMoving = true) (hl : s.tower.getLast? = some lastB)
    (hov : calculateOverlap cb lastB ≤ 0) :
    (dropBlock s cb).1 = .missed ∧
    (dropBlock s cb).2 = { s with isActive := false } ∧
    (dropBlock s cb).2.isActive = false ∧
    (dropBlock s cb).2.tower = s.tower ∧
    (dropBlock s cb).2.score = s.score ∧
    (dropBlock s cb).2.comboStreak = s.comboStreak ∧
    (dropBlock s cb).2.blocksPlaced = s.blocksPlaced ∧
    (dropBlock s cb).2.blocksInCurrentLevel = s.blocksInCurrentLevel ∧
    (dropBlock s cb).2.level = s.level := by
  rw [dropBlock_miss_eq s cb lastB hm hl hov]
  exact ⟨rfl, rfl, rfl, rfl, rfl, rfl, rfl, rfl, rfl⟩

/-- Witness for C7: dropping a block touching only x in [0, 150] on
the fresh level-1 tower whose top spans x in [325, 475]. -/
theorem dropBlock_miss_witness :
    (dropBlock (initGame 1) (movingBlock 150 0)).1 = .missed ∧
    (dropBlock (initGame 1) (movingBlock 150 0)).2 =
      { initGame 1 with isActive := false } ∧
    (dropBlock (initGame 1) (movingBlock 150 0)).2.isActive = false ∧
    (dropBlock (initGame 1) (movingBlock 150 0)).2.tower = (initGame 1).tower ∧
    (dropBlock (initGame 1) (movingBlock 150 0)).2.score = (initGame 1).score ∧
    (dropBlock (initGame 1) (movingBlock 150 0)).2.comboStreak =
      (initGame 1).comboStreak ∧
    (dropBlock (initGame 1) (movingBlock 150 0)).2.blocksPlaced =
      (initGame 1).blocksPlaced ∧
    (dropBlock (initGame 1) (movingBlock 150 0)).2.blocksInCurrentLevel =
      (initGame 1).blocksInCurrentLevel ∧
    (dropBlock (initGame 1) (movingBlock 150 0)).2.level = (initGame 1).level :=
  dropBlock_miss (initGame 1) (movingBlock 150 0) initialBase rfl
    (by norm_num [dropBlock, finishDrop, initGame, initialBase, stateC1, movingBlock,
    Block.place, Block.shrink, defaultConfig, calculateOverlap, isPerfectDrop,
    DropOutcome.isPerfect, getLevelConfig, calculateLevelParameters,
    endlessLevelConfig, LEVELS, relaxedMinWidth, max_def, min_def,
    tutorialMech_ne_precision, c6drop1, c6drop2, c6drop3])
    (by norm_num [dropBlock, finishDrop, initGame, initialBase, stateC1, movingBlock,
    Block.place, Block.shrink, defaultConfig, calculateOverlap, isPerfectDrop,
    DropOutcome.isPerfect, getLevelConfig, calculateLevelParameters,
    endlessLevelConfig, LEVELS, relaxedMinWidth, max_def, min_def,
    tutorialMech_ne_precision, c6drop1, c6drop2, c6drop3])

/-- C10: the too-small exit of dropBlock is unreachable: every drop
with positive overlap appends the block to the tower, because
Block.shrink clamps the width up to the very minimum that the exit
tests. -/
theorem dropBlock_never_tooSmall (s : GameState) (cb lastB : Block)
    (hm : cb.isMoving = true) (hl : s.tower.getLast? = some lastB)
    (hov : 0 < calculateOverlap cb lastB) :
    (dropBlock s cb).1 ≠ .tooSmall ∧
    ∃ b : Block, (dropBlock s cb).2.tower = s.tower ++ [b] := by
  rw [dropBlock_pos_eq s cb lastB hm hl hov]
  by_cases hperf : isPerfectDrop cb lastB s.perfectThreshold = true
  · rw [if_pos hperf]
    refine ⟨?_, _, finishDrop_tower _ _ _⟩
    rcases finishDrop_fst _ _ true with h | h <;> rw [h] <;> simp
  · rw [if_neg hperf]
    refine ⟨?_, _, finishDrop_tower _ _ _⟩
    rcases finishDrop_fst _ _ false with h | h <;> rw [h] <;> simp

/-- Witness for C10: a concrete full-overlap drop on the fresh level-1
session is appended and is not a too-small failure. -/
theorem dropBlock_never_tooSmall_witness :
    (dropBlock (initGame 1) (movingBlock 150 325)).1 ≠ .tooSmall ∧
    ∃ b : Block, (dropBlock (initGame 1) (movingBlock 150 325)).2.tower =
      (initGame 1).tower ++ [b] :=
  dropBlock_never_tooSmall (initGame 1) (movingBlock 150 325) initialBase rfl
    (by norm_num [dropBlock, finishDrop, initGame, initialBase, stateC1, movingBlock,
    Block.place, Block.shrink, defaultConfig, calculateOverlap, isPerfectDrop,
    DropOutcome.isPerfect, getLevelConfig, calculateLevelParameters,
    endlessLevelConfig, LEVELS, relaxedMinWidth, max_def, min_def,
    tutorialMech_ne_precision, c6drop1, c6drop2, c6drop3])
    (by norm_num [dropBlock, finishDrop, initGame, initialBase, stateC1, movingBlock,
    Block.place, Block.shrink, defaultConfig, calculateOverlap, isPerfectDrop,
    DropOutcome.isPerfect, getLevelConfig, calculateLevelParameters,
    endlessLevelConfig, LEVELS, relaxedMinWidth, max_def, min_def,
    tutorialMech_ne_precision, c6drop1, c6drop2, c6drop3])

/-- C6: starting a fresh session at level 1 and dropping three blocks
that fully overlap the tower top gives three perfect drops and ends
with level 2, score (10 + 5) * 3 + 100 + 200 + 300 = 645 and combo
streak 3. -/
theorem three_perfect_drops :
    (dropBlock (initGame 1) (movingBlock 150 325)).1.isPerfect = true ∧
    (dropBlock c6drop1 (movingBlock 150 325)).1.isPerfect = true ∧
    (dropBlock c6drop2 (movingBlock 150 325)).1.isPerfect = true ∧
    c6drop3.level = 2 ∧
    c6drop3.score = 645 ∧
    c6drop3.comboStreak = 3 := by
  norm_num [dropBlock, finishDrop, initGame, initialBase, stateC1, movingBlock,
    Block.place, Block.shrink, defaultConfig, calculateOverlap, isPerfectDrop,
    DropOutcome.isPerfect, getLevelConfig, calculateLevelParameters,
    endlessLevelConfig, LEVELS, relaxedMinWidth, max_def, min_def,
    tutorialMech_ne_precision, c6drop1, c6drop2, c6drop3]

/-- C2: a perfect drop keeps the width of the placed block, increments
the combo streak and adds a bonus of 100 * streak * multiplier on top
of the base points, the multiplier being 2 under the
precision-challenge mechanic and 1 otherwise; a non-perfect placed drop
resets the streak to 0.  Concretely, three consecutive perfect drops on
a fresh level-1 session add bonuses 100, 200 and 300 beyond the base
points. -/
theorem perfect_drop_effects :
    (∀ (s : GameState) (cb lastB : Block), cb.isMoving = true →
      s.tower.getLast? = some lastB → 0 < calculateOverlap cb lastB →
      isPerfectDrop cb lastB s.perfectThreshold = true →
      (∃ b : Block, (dropBlock s cb).2.tower = s.tower ++ [b] ∧
        b.width = cb.width) ∧
      (dropBlock s cb).2.comboStreak = s.comboStreak + 1 ∧
      (dropBlock s cb).2.score = s.score +
        100 * ((s.comboStreak : ℚ) + 1) *
          (if s.currentLevelConfig.specialMechanics =
             some .precisionChallenge then 2 else 1) +
        (10 + (s.level : ℚ) * 5)) ∧
    (∀ (s : GameState) (cb lastB : Block), cb.isMoving = true →
      s.tower.getLast? = some lastB → 0 < calculateOverlap cb lastB →
      isPerfectDrop cb lastB s.perfectThreshold = false →
      (dropBlock s cb).2.comboStreak = 0) ∧
    c6drop1.score - (initGame 1).score - 15 = 100 ∧
    c6drop2.score - c6drop1.score - 15 = 200 ∧
    c6drop3.score - c6drop2.score - 15 = 300 := by
  refine ⟨?_, ?_, by norm_num [dropBlock, finishDrop, initGame, initialBase, stateC1, movingBlock,
    Block.place, Block.shrink, defaultConfig, calculateOverlap, isPerfectDrop,
    DropOutcome.isPerfect, getLevelConfig, calculateLevelParameters,
    endlessLevelConfig, LEVELS, relaxedMinWidth, max_def, min_def,
    tutorialMech_ne_precision, c6drop1, c6drop2, c6drop3],
    by norm_num [dropBlock, finishDrop, initGame, initialBase, stateC1, movingBlock,
    Block.place, Block.shrink, defaultConfig, calculateOverlap, isPerfectDrop,
    DropOutcome.isPerfect, getLevelConfig, calculateLevelParameters,
    endlessLevelConfig, LEVELS, relaxedMinWidth, max_def, min_def,
    tutorialMech_ne_precision, c6drop1, c6drop2, c6drop3],
    by norm_num [dropBlock, finishDrop, initGame, initialBase, stateC1, movingBlock,
    Block.place, Block.shrink, defaultConfig, calculateOverlap, isPerfectDrop,
    DropOutcome.isPerfect, getLevelConfig, calculateLevelParameters,
    endlessLevelConfig, LEVELS, relaxedMinWidth, max_def, min_def,
    tutorialMech_ne_precision, c6drop1, c6drop2, c6drop3]⟩
  · intro s cb lastB hm hl hov hperf
    rw [dropBlock_pos_eq s cb lastB hm hl hov, if_pos hperf]
    refine ⟨⟨_, finishDrop_tower _ _ _, rfl⟩, finishDrop_comboStreak _ _ _, ?_⟩
    rw [finishDrop_score]
    push_cast
    ring
  · intro s cb lastB hm hl hov hperf
    rw [dropBlock_pos_eq s cb lastB hm hl hov,
      if_neg (by rw [hperf]; exact Bool.false_ne_true)]
    exact finishDrop_comboStreak _ _ _

/-- Witness for C2: the first full-overlap drop on a fresh level-1
session increments the streak from 0 to 1. -/
theorem perfect_drop_effects_witness :
    (dropBlock (initGame 1) (movingBlock 150 325)).2.comboStreak =
      (initGame 1).comboStreak + 1 :=
  (perfect_drop_effects.1 (initGame 1) (movingBlock 150 325) initialBase rfl
    (by norm_num [dropBlock, finishDrop, initGame, initialBase, stateC1, movingBlock,
    Block.place, Block.shrink, defaultConfig, calculateOverlap, isPerfectDrop,
    DropOutcome.isPerfect, getLevelConfig, calculateLevelParameters,
    endlessLevelConfig, LEVELS, relaxedMinWidth, max_def, min_def,
    tutorialMech_ne_precision, c6drop1, c6drop2, c6drop3])
    (by norm_num [dropBlock, finishDrop, initGame, initialBase, stateC1, movingBlock,
    Block.place, Block.shrink, defaultConfig, calculateOverlap, isPerfectDrop,
    DropOutcome.isPerfect, getLevelConfig, calculateLevelParameters,
    endlessLevelConfig, LEVELS, relaxedMinWidth, max_def, min_def,
    tutorialMech_ne_precision, c6drop1, c6drop2, c6drop3])
    (by norm_num [dropBlock, finishDrop, initGame, initialBase, stateC1, movingBlock,
    Block.place, Block.shrink, defaultConfig, calculateOverlap, isPerfectDrop,
    DropOutcome.isPerfect, getLevelConfig, calculateLevelParameters,
    endlessLevelConfig, LEVELS, relaxedMinWidth, max_def, min_def,
    tutorialMech_ne_precision, c6drop1, c6drop2, c6drop3])).2.1

/-- C3 counterexample: requesting a width larger than the current one
makes Block.shrink grow the block, so the shrink operation does not
satisfy the claim for every requested new width: a block of width 30
shrunk to a requested 50 ends at width 50. -/
theorem shrink_increase_counterexample :
    ¬ ((Block.shrink (movingBlock 30 0) defaultConfig 50).width ≤
        (movingBlock 30 0).width) := by
  norm_num [Block.shrink, movingBlock, defaultConfig, max_def]

/-- C3 (amended): for a block at or above the relaxed minimum width and
a requested width not exceeding the current one, shrink never increases
the width; the post-shrink width is never below
max(minBlockWidth * 0.7, 20), which is 28 for the configured minimum of
40; and a non-perfect drop sets the placed width to
max(overlap, relaxed minimum). -/
theorem shrink_bounds :
    (∀ (b : Block) (cfg : Config) (w : ℚ),
      relaxedMinWidth cfg ≤ b.width → w ≤ b.width →
      (b.shrink cfg w).width ≤ b.width) ∧
    (∀ (b : Block) (cfg : Config) (w : ℚ),
      relaxedMinWidth cfg ≤ (b.shrink cfg w).width) ∧
    relaxedMinWidth defaultConfig = 28 ∧
    (∀ (s : GameState) (cb lastB : Block), cb.isMoving = true →
      s.tower.getLast? = some lastB → 0 < calculateOverlap cb lastB →
      isPerfectDrop cb lastB s.perfectThreshold = false →
      ∃ b : Block, (dropBlock s cb).2.tower = s.tower ++ [b] ∧
        b.width = max (calculateOverlap cb lastB) (relaxedMinWidth s.config)) := by
  refine ⟨?_, shrink_width_ge, by norm_num [relaxedMinWidth, defaultConfig, max_def], ?_⟩
  · intro b cfg w hmin hw
    rw [shrink_width]
    exact max_le hw hmin
  · intro s cb lastB hm hl hov hperf
    rw [dropBlock_pos_eq s cb lastB hm hl hov,
      if_neg (by rw [hperf]; exact Bool.false_ne_true)]
    exact ⟨_, finishDrop_tower _ _ _, shrink_width _ _ _⟩

/-- Witness for C3: shrinking a width-30 block to a requested 25 does
not increase its width, as 30 is above the relaxed minimum 28. -/
theorem shrink_bounds_witness :
    (Block.shrink (movingBlock 30 0) defaultConfig 25).width ≤
      (movingBlock 30 0).width :=
  shrink_bounds.1 (movingBlock 30 0) defaultConfig 25
    (by norm_num [relaxedMinWidth, defaultConfig, movingBlock, max_def])
    (by norm_num [movingBlock])

/-- Three stacked width-10 blocks whose middle block is shifted 500
units right, giving adjacent centre offsets 500 + 500 = 1000, beyond
the level-1 forgiveness bound 800 * 0.6 = 480. -/
def collapseState : GameState :=
  { initGame 1 with
      tower := [(movingBlock 10 0).place,
                (movingBlock 10 500).place,
                { (movingBlock 10 0).place with id := 2 }] }

/-- C4: with at least 3 placed blocks and an active session, the
stability check collapses the tower, deactivating the session and
flagging every block, exactly when the summed adjacent-centre offsets
exceed canvasWidth * 0.6 * max(0.8, 1 - (level - 1) * 0.02); a tower of
fewer than 3 blocks is never touched, and neither is one with total
offset 0, at any level. -/
theorem towerStability_collapse_iff :
    (∀ s : GameState, s.isActive = true → 3 ≤ s.tower.length →
      (((checkTowerStability s).isActive = false ∧
        ∀ b ∈ (checkTowerStability s).tower, b.collapsing = true) ↔
       s.config.canvasWidth * 0.6 * max 0.8 (1 - ((s.level : ℚ) - 1) * 0.02) <
         towerTotalOffset s.tower)) ∧
    (∀ s : GameState, s.tower.length < 3 → checkTowerStability s = s) ∧
    (∀ s : GameState, 0 < s.config.canvasWidth →
      towerTotalOffset s.tower = 0 → checkTowerStability s = s) := by
  refine ⟨?_, ?_, ?_⟩
  · intro s hA h3
    unfold checkTowerStability
    rw [if_neg (not_lt.mpr h3)]
    by_cases hC : s.config.canvasWidth * 0.6 *
        max 0.8 (1 - ((s.level : ℚ) - 1) * 0.02) < towerTotalOffset s.tower
    · rw [if_pos hC]
      refine iff_of_true ⟨rfl, ?_⟩ hC
      intro b hb
      rcases List.mem_map.mp hb with ⟨a, _, rfl⟩
      rfl
    · rw [if_neg hC]
      refine iff_of_false (fun h => ?_) hC
      rw [hA] at h
      exact absurd h.1 (by simp)
  · intro s h3
    unfold checkTowerStability
    rw [if_pos h3]
  · intro s hcw h0
    unfold checkTowerStability
    by_cases h3 : s.tower.length < 3
    · rw [if_pos h3]
    · rw [if_neg h3, h0, if_neg (not_lt.mpr ?_)]
      have hmax : (0 : ℚ) < max 0.8 (1 - ((s.level : ℚ) - 1) * 0.02) :=
        lt_of_lt_of_le (by norm_num) (le_max_left _ _)
      positivity

/-- Witness for C4: the concrete offset-1000 tower collapses at level
1, deactivating the session and flagging all three blocks. -/
theorem towerStability_collapse_iff_witness :
    (checkTowerStability collapseState).isActive = false ∧
    ∀ b ∈ (checkTowerStability collapseState).tower, b.collapsing = true :=
  (towerStability_collapse_iff.1 collapseState rfl
    (by norm_num [collapseState, initGame, Block.place, movingBlock, defaultConfig,
      getLevelConfig, calculateLevelParameters, LEVELS])).mpr
    (by norm_num [collapseState, initGame, Block.place, movingBlock, defaultConfig,
      towerTotalOffset, getLevelConfig, calculateLevelParameters, LEVELS,
      max_def, abs])

/-- Beyond the seven defined levels, getLevelConfig falls back to the
endless-mode default. -/
theorem getLevelConfig_gt7 (L : ℕ) (h : 7 < L) :
    getLevelConfig L = endlessLevelConfig L := by
  have hf : LEVELS.find? (fun l => l.id == L) = none := by
    rw [List.find?_eq_none]
    intro l hl
    fin_cases hl <;> simp <;> omega
  rw [getLevelConfig, hf]
  rfl

/-- Beyond the seven defined levels, the calculated parameters are the
endless base parameters under applyEndlessScaling. -/
theorem calculateLevelParameters_gt7 (L : ℕ) (h : 7 < L) :
    calculateLevelParameters L =
      applyEndlessScaling
        { blockSpeed := 1.5, widthMin := 50, widthMax := 90
          perfectThreshold := 0.8, speedIncrease := 0.08
          pointsPerBlock := 10, comboMultiplier := 1.5 } L := by
  unfold calculateLevelParameters
  rw [getLevelConfig_gt7 L h, if_pos h]
  rfl

/-- C5: for every level beyond the last defined one, the synthesized
parameters scale monotonically in the level number: the block speed and
the perfect threshold never decrease from one level to the next, both
ends of the width range never increase, the width ends are clamped at
the floors 30 and 60, and the perfect threshold is capped at 0.99. -/
theorem endlessScaling_monotone (L : ℕ) (hL : 7 < L) :
    (calculateLevelParameters L).blockSpeed ≤
      (calculateLevelParameters (L + 1)).blockSpeed ∧
    (calculateLevelParameters L).perfectThreshold ≤
      (calculateLevelParameters (L + 1)).perfectThreshold ∧
    (calculateLevelParameters (L + 1)).widthMin ≤
      (calculateLevelParameters L).widthMin ∧
    (calculateLevelParameters (L + 1)).widthMax ≤
      (calculateLevelParameters L).widthMax ∧
    30 ≤ (calculateLevelParameters L).widthMin ∧
    60 ≤ (calculateLevelParameters L).widthMax ∧
    (calculateLevelParameters L).perfectThreshold ≤ 0.99 := by
  rw [calculateLevelParameters_gt7 L hL,
    calculateLevelParameters_gt7 (L + 1) (by omega)]
  unfold applyEndlessScaling
  simp only [Nat.cast_add, Nat.cast_one]
  refine ⟨by linarith,
    min_le_min le_rfl (by linarith),
    max_le_max le_rfl (by nlinarith),
    max_le_max le_rfl (by nlinarith),
    le_max_left _ _, le_max_left _ _, min_le_left _ _⟩

/-- Witness for C5: the monotonicity and clamping facts at the first
synthesized level, 8 versus 9. -/
theorem endlessScaling_monotone_witness :
    (calculateLevelParameters 8).blockSpeed ≤
      (calculateLevelParameters 9).blockSpeed ∧
    (calculateLevelParameters 8).perfectThreshold ≤
      (calculateLevelParameters 9).perfectThreshold ∧
    (calculateLevelParameters 9).widthMin ≤
      (calculateLevelParameters 8).widthMin ∧
    (calculateLevelParameters 9).widthMax ≤
      (calculateLevelParameters 8).widthMax ∧
    30 ≤ (calculateLevelParameters 8).widthMin ∧
    60 ≤ (calculateLevelParameters 8).widthMax ∧
    (calculateLevelParameters 8).perfectThreshold ≤ 0.99 :=
  endlessScaling_monotone 8 (by norm_num)

/-- Reduction of finishDrop when the quota of a non-final level is
reached: the level advances, the per-level counter resets, and the new
level parameters are loaded while the session pauses for the level
transition popup. -/
theorem finishDrop_advance (s : GameState) (b : Block) (p : Bool) (n : ℕ)
    (hq : s.currentLevelConfig.blocksToComplete = some n)
    (hn : n ≤ s.blocksInCurrentLevel + 1) (h7 : s.level ≠ 7) :
    (finishDrop s b p).2 =
      { s with tower := s.tower ++ [b]
               blocksPlaced := s.blocksPlaced + 1
               blocksInCurrentLevel := 0
               score := s.score + (10 + (s.level : ℚ) * 5)
               level := s.level + 1
               currentLevelConfig := getLevelConfig (s.level + 1)
               currentLevelParams := calculateLevelParameters (s.level + 1)
               perfectThreshold :=
                 (calculateLevelParameters (s.level + 1)).perfectThreshold
               isPaused := true } := by
  unfold finishDrop
  simp only [hq]
  rw [if_pos hn, if_neg h7]

/-- The tower-top block after two full-overlap drops of width-150
blocks at x = 325 on a fresh level-1 session. -/
def c6topBlock : Block :=
  { id := 1, width := 150, x := 325, y := 710, speed := 0, verticalSpeed := 0
    isMoving := false, isPlaced := true, originalWidth := 150
    collapsing := false, missing := false }

/-- C8: a viable drop that fills the quota of 3 blocks in a non-final
level advances the level by exactly 1, resets the per-level counter to
0, reloads the level configuration and parameters (including the
perfect threshold) for the new level, keeps accumulating the global
blocksPlaced counter, and adds the base points 10 + level * 5 (at the
pre-advance level) beside any perfect bonus. -/
theorem level_advance (s : GameState) (cb lastB : Block)
    (hm : cb.isMoving = true) (hl : s.tower.getLast? = some lastB)
    (hov : 0 < calculateOverlap cb lastB)
    (hq : s.currentLevelConfig.blocksToComplete = some 3)
    (hbc : s.blocksInCurrentLevel = 2) (h7 : s.level ≠ 7) :
    (dropBlock s cb).2.level = s.level + 1 ∧
    (dropBlock s cb).2.blocksInCurrentLevel = 0 ∧
    (dropBlock s cb).2.currentLevelConfig = getLevelConfig (s.level + 1) ∧
    (dropBlock s cb).2.currentLevelParams =
      calculateLevelParameters (s.level + 1) ∧
    (dropBlock s cb).2.perfectThreshold =
      (calculateLevelParameters (s.level + 1)).perfectThreshold ∧
    (dropBlock s cb).2.blocksPlaced = s.blocksPlaced + 1 ∧
    (dropBlock s cb).2.score = s.score +
      (if isPerfectDrop cb lastB s.perfectThreshold then
        100 * ((s.comboStreak : ℚ) + 1) *
          (if s.currentLevelConfig.specialMechanics =
             some .precisionChallenge then 2 else 1) else 0) +
      (10 + (s.level : ℚ) * 5) := by
  have hn : 3 ≤ s.blocksInCurrentLevel + 1 := by omega
  rw [dropBlock_pos_eq s cb lastB hm hl hov]
  by_cases hperf : isPerfectDrop cb lastB s.perfectThreshold = true
  · rw [if_pos hperf]
    rw [finishDrop_advance]
    rotate_left
    · exact 3
    · exact hq
    · exact hn
    · exact h7
    rw [if_pos hperf]
    refine ⟨rfl, rfl, rfl, rfl, rfl, rfl, ?_⟩
    show s.score + 100 * ((s.comboStreak + 1 : ℕ) : ℚ) *
        (if s.currentLevelConfig.specialMechanics =
           some .precisionChallenge then 2 else 1) +
        (10 + (s.level : ℚ) * 5) = _
    push_cast
    ring
  · rw [if_neg hperf]
    rw [finishDrop_advance]
    rotate_left
    · exact 3
    · exact hq
    · exact hn
    · exact h7
    rw [if_neg hperf]
    refine ⟨rfl, rfl, rfl, rfl, rfl, rfl, ?_⟩
    show s.score + (10 + (s.level : ℚ) * 5) = _
    ring

/-- Witness for C8: the third full-overlap drop on a fresh level-1
session advances the session to level 2 with the per-level counter
reset and three blocks placed in total. -/
theorem level_advance_witness :
    (dropBlock c6drop2 (movingBlock 150 325)).2.level = c6drop2.level + 1 ∧
    (dropBlock c6drop2 (movingBlock 150 325)).2.blocksInCurrentLevel = 0 ∧
    (dropBlock c6drop2 (movingBlock 150 325)).2.currentLevelConfig =
      getLevelConfig (c6drop2.level + 1) ∧
    (dropBlock c6drop2 (movingBlock 150 325)).2.currentLevelParams =
      calculateLevelParameters (c6drop2.level + 1) ∧
    (dropBlock c6drop2 (movingBlock 150 325)).2.perfectThreshold =
      (calculateLevelParameters (c6drop2.level + 1)).perfectThreshold ∧
    (dropBlock c6drop2 (movingBlock 150 325)).2.blocksPlaced =
      c6drop2.blocksPlaced + 1 ∧
    (dropBlock c6drop2 (movingBlock 150 325)).2.score = c6drop2.score +
      (if isPerfectDrop (movingBlock 150 325) c6topBlock
           c6drop2.perfectThreshold then
        100 * ((c6drop2.comboStreak : ℚ) + 1) *
          (if c6drop2.currentLevelConfig.specialMechanics =
             some .precisionChallenge then 2 else 1) else 0) +
      (10 + (c6drop2.level : ℚ) * 5) :=
  level_advance c6drop2 (movingBlock 150 325) c6topBlock rfl
    (by norm_num [dropBlock, finishDrop, initGame, initialBase, movingBlock,
    Block.place, Block.shrink, defaultConfig, calculateOverlap, isPerfectDrop,
    DropOutcome.isPerfect, getLevelConfig, calculateLevelParameters,
    endlessLevelConfig, LEVELS, relaxedMinWidth, max_def, min_def,
    tutorialMech_ne_precision, c6drop1, c6drop2, c6topBlock,
    List.getLast?_cons_cons, List.getLast?_singleton])
    (by norm_num [dropBlock, finishDrop, initGame, initialBase, movingBlock,
    Block.place, Block.shrink, defaultConfig, calculateOverlap, isPerfectDrop,
    DropOutcome.isPerfect, getLevelConfig, calculateLevelParameters,
    endlessLevelConfig, LEVELS, relaxedMinWidth, max_def, min_def,
    tutorialMech_ne_precision, c6drop1, c6drop2, c6topBlock,
    List.getLast?_cons_cons, List.getLast?_singleton])
    (by norm_num [dropBlock, finishDrop, initGame, initialBase, movingBlock,
    Block.place, Block.shrink, defaultConfig, calculateOverlap, isPerfectDrop,
    DropOutcome.isPerfect, getLevelConfig, calculateLevelParameters,
    endlessLevelConfig, LEVELS, relaxedMinWidth, max_def, min_def,
    tutorialMech_ne_precision, c6drop1, c6drop2, c6topBlock,
    List.getLast?_cons_cons, List.getLast?_singleton])
    (by norm_num [dropBlock, finishDrop, initGame, initialBase, movingBlock,
    Block.place, Block.shrink, defaultConfig, calculateOverlap, isPerfectDrop,
    DropOutcome.isPerfect, getLevelConfig, calculateLevelParameters,
    endlessLevelConfig, LEVELS, relaxedMinWidth, max_def, min_def,
    tutorialMech_ne_precision, c6drop1, c6drop2, c6topBlock,
    List.getLast?_cons_cons, List.getLast?_singleton])
    (by norm_num [dropBlock, finishDrop, initGame, initialBase, movingBlock,
    Block.place, Block.shrink, defaultConfig, calculateOverlap, isPerfectDrop,
    DropOutcome.isPerfect, getLevelConfig, calculateLevelParameters,
    endlessLevelConfig, LEVELS, relaxedMinWidth, max_def, min_def,
    tutorialMech_ne_precision, c6drop1, c6drop2, c6topBlock,
    List.getLast?_cons_cons, List.getLast?_singleton])

/-- C9: every block in the tower has width at least the relaxed
minimum max(minBlockWidth * 0.7, 20), which is 28 under the configured
minimum width 40: the invariant holds after initGame at any level,
every width that generateNewBlock can produce satisfies it, and every
dropBlock call whose active block satisfies it preserves it. -/
theorem tower_min_width_invariant :
    (∀ L : ℕ, ∀ b ∈ (initGame L).tower,
      relaxedMinWidth defaultConfig ≤ b.width) ∧
    (∀ (params : LevelParams) (mech : Option SpecialMechanic) (k : ℕ) (r : ℚ),
      relaxedMinWidth defaultConfig ≤
        generateNewBlockWidth defaultConfig params mech k r) ∧
    (∀ (s : GameState) (cb : Block), s.config = defaultConfig →
      (∀ b ∈ s.tower, relaxedMinWidth defaultConfig ≤ b.width) →
      relaxedMinWidth defaultConfig ≤ cb.width →
      ∀ b ∈ (dropBlock s cb).2.tower,
        relaxedMinWidth defaultConfig ≤ b.width) := by
  have h28 : relaxedMinWidth defaultConfig = 28 := by
    norm_num [relaxedMinWidth, defaultConfig, max_def]
  refine ⟨?_, ?_, ?_⟩
  · intro L b hb
    simp only [initGame, List.mem_singleton] at hb
    subst hb
    norm_num [relaxedMinWidth, Block.place, defaultConfig, max_def]
  · intro params mech k r
    rw [h28]
    have hbase : (40 : ℚ) ≤ max defaultConfig.minBlockWidth
        (params.widthMin + r * (params.widthMax - params.widthMin)) :=
      le_max_iff.mpr (Or.inl (by norm_num [defaultConfig]))
    unfold generateNewBlockWidth
    rcases mech with _ | m
    · exact le_trans (by norm_num) hbase
    · cases m
      case sizeReduction =>
        have hm : (0.7 : ℚ) ≤ max 0.7 (1 - (k : ℚ) * 0.05) := le_max_left _ _
        show (28 : ℚ) ≤ max defaultConfig.minBlockWidth
          (params.widthMin + r * (params.widthMax - params.widthMin)) *
          max 0.7 (1 - (k : ℚ) * 0.05)
        nlinarith
      case ultimateChallenge =>
        have hm : (0.8 : ℚ) ≤ max 0.8 (1 - (k : ℚ) * 0.03) := le_max_left _ _
        show (28 : ℚ) ≤ max defaultConfig.minBlockWidth
          (params.widthMin + r * (params.widthMax - params.widthMin)) *
          max 0.8 (1 - (k : ℚ) * 0.03)
        nlinarith
      all_goals exact le_trans (by norm_num) hbase
  · intro s cb hcfg htower hcb b hb
    by_cases hmv : cb.isMoving = true
    · rcases hlast : s.tower.getLast? with _ | lastB
      · rw [dropBlock_no_tower s cb hlast] at hb
        exact htower b hb
      · by_cases hov : calculateOverlap cb lastB ≤ 0
        · rw [dropBlock_miss_eq s cb lastB hmv hlast hov] at hb
          exact htower b hb
        · rw [dropBlock_pos_eq s cb lastB hmv hlast (not_le.mp hov)] at hb
          by_cases hperf : isPerfectDrop cb lastB s.perfectThreshold = true
          · rw [if_pos hperf, finishDrop_tower] at hb
            rcases List.mem_append.mp hb with h | h
            · exact htower b h
            · rw [List.mem_singleton] at h
              subst h
              exact hcb
          · rw [if_neg hperf, finishDrop_tower] at hb
            rcases List.mem_append.mp hb with h | h
            · exact htower b h
            · rw [List.mem_singleton] at h
              subst h
              rw [← hcfg]
              exact shrink_width_ge _ _ _
    · rw [dropBlock_not_moving s cb (by simpa using hmv)] at hb
      exact htower b hb

/-- Witness for C9: the preservation clause applied to a full-overlap
drop on the fresh level-1 session, whose tower satisfies the invariant
by the initialization clause. -/
theorem tower_min_width_invariant_witness :
    ∀ b ∈ (dropBlock (initGame 1) (movingBlock 150 325)).2.tower,
      relaxedMinWidth defaultConfig ≤ b.width :=
  tower_min_width_invariant.2.2 (initGame 1) (movingBlock 150 325) rfl
    (tower_min_width_invariant.1 1)
    (by norm_num [relaxedMinWidth, defaultConfig, movingBlock, max_def])

end StackHero





